import Mathlib

/-!
Verification development for the usage-based overage billing reconciliation
engine of the sim repository (apps/sim/lib/billing).

The embedding translates, from the TypeScript source:
  - getPlanPricing                      (billing/core/billing.ts, lines 54-88)
  - getStripeCustomerId                 (billing/core/billing.ts, lines 93-145)
  - createOverageBillingInvoice         (billing/core/billing.ts, lines 150-313)
  - calculateUserOverage                (billing/core/billing.ts, lines 319-355)
  - processUserOverageBilling           (billing/core/billing.ts, lines 360-443)
  - processOrganizationOverageBilling   (billing/core/billing.ts, lines 448-596)
  - resetUsageForSubscription           (billing/webhooks/invoices.ts, lines 11-46)
  - handleInvoicePaymentSucceeded       (billing/webhooks/invoices.ts, lines 52-119)
  - handleInvoicePaymentFailed          (billing/webhooks/invoices.ts, lines 125-196)
  - handleInvoiceCreated                (billing/webhooks/invoices.ts, lines 198-298)
  - handleInvoiceUpcoming               (billing/webhooks/invoices.ts, lines 488-592)

Modelling conventions:
  - JavaScript numbers (dollar amounts, usage) are modelled as rationals.
  - Database rows are structures; per-user stats rows are a total function
    from user id to an optional row (SQL UPDATE touches existing rows only).
  - Remote Stripe state is a record of invoices, invoice items and used
    idempotency keys; remote call failures (the catch branches of the
    source) are not modelled, so every theorem describes the runs in which
    the remote calls succeed.
  - Logging calls, customer email synchronisation (a write to the remote
    customer record that nothing in scope reads back) and the Stripe event
    wrapper (whose id is used for logging only) are elided.
  - Wall-clock dates are abstracted by parameters: a current timestamp,
    a month-formatting function (new Date(ts).toISOString().slice(0, 7))
    and a month-start-timestamp function.
-/

namespace SimBilling

/-- JavaScript defaulting for a nullable decimal column: the source writes
`currentStats[0].current || '0'`, and a decimal column yields a non-empty
string when present, so only the null case falls back to zero. -/
def jsOrZero (o : Option ℚ) : ℚ := o.getD 0

/-- JavaScript `x || d` on an optional string: null/undefined and the empty
string are falsy. -/
def jsOrStr (o : Option String) (d : String) : String :=
  match o with
  | none => d
  | some s => if s = "" then d else s

/-- JavaScript truthiness filter for an optional string field, as in
`userRecord[0].stripeCustomerId` guards: null and `""` are falsy. -/
def jsStrSome (o : Option String) : Option String :=
  match o with
  | none => none
  | some s => if s = "" then none else some s

/-- JavaScript `subscription.seats || 1`: null/undefined and 0 default to 1. -/
def jsSeats (o : Option Nat) : Nat :=
  match o with
  | none => 1
  | some 0 => 1
  | some (n + 1) => n + 1

/-- JavaScript `invoice.attempt_count || 1`: null/undefined and 0 default to 1. -/
def jsAttempts (o : Option Nat) : Nat :=
  match o with
  | none => 1
  | some 0 => 1
  | some (n + 1) => n + 1

/-- JavaScript `invoice.lines?.data?.[0]?.period?.end || fallback`:
null/undefined and 0 default to the fallback timestamp. -/
def jsOrTs (o : Option Nat) (d : Nat) : Nat :=
  match o with
  | none => d
  | some 0 => d
  | some (n + 1) => n + 1

/-- JavaScript `Math.round(x)`: rounds half toward positive infinity. -/
def jsRound (q : ℚ) : ℤ := ⌊q + 1 / 2⌋

/-- JSON value stored under `metadata.perSeatPrice`: the source accepts a
string or a number there (`Number.parseFloat(String(metadata.perSeatPrice))`). -/
inductive JsonVal where
  | jstr (s : String)
  | jnum (q : ℚ)
deriving DecidableEq

/-- JavaScript truthiness of a JSON value: a string is falsy exactly when
empty, a number exactly when zero (NaN never reaches this model because
`parseFloatOfVal` reports it as `none`). -/
def jsTruthy : JsonVal → Bool
  | .jstr s => if s = "" then false else true
  | .jnum q => if q = 0 then false else true

/-- Numeric value of a list of decimal digit characters. -/
def digitsToNat (l : List Char) : Nat :=
  l.foldl (fun a c => 10 * a + (c.toNat - '0'.toNat)) 0

/-- JavaScript `Number.parseFloat` on a string, restricted to the forms the
billing metadata uses: optional leading whitespace, optional sign, decimal
digits with an optional fraction, trailing garbage ignored. `none` stands
for NaN. (Exponent notation and the Infinity literals are not modelled.) -/
def jsParseFloat (s : String) : Option ℚ :=
  let cs := s.data.dropWhile (fun c => c == ' ' || c == '\t' || c == '\n' || c == '\r')
  let signAndRest : ℚ × List Char :=
    match cs with
    | '-' :: t => (-1, t)
    | '+' :: t => (1, t)
    | t => (1, t)
  let intd := signAndRest.2.takeWhile Char.isDigit
  let rest := signAndRest.2.dropWhile Char.isDigit
  let fracd :=
    match rest with
    | '.' :: t => t.takeWhile Char.isDigit
    | _ => []
  if intd.isEmpty ∧ fracd.isEmpty then none
  else
    some (signAndRest.1 *
      ((digitsToNat intd : ℚ) + (digitsToNat fracd : ℚ) / (10 : ℚ) ^ fracd.length))

/-- Result of `Number.parseFloat(String(v))` for a JSON value; a number
round-trips through `String`. -/
def parseFloatOfVal : JsonVal → Option ℚ
  | .jnum q => some q
  | .jstr s => jsParseFloat s

/-- EnterpriseSubscriptionMetadata, restricted to the field the billing code
reads. The source also accepts the metadata as a JSON string and parses it;
the model works with the parsed object directly. -/
structure EnterpriseMeta where
  perSeatPrice : Option JsonVal
deriving DecidableEq

/-- Tier limit configuration. Modelled from the spec: the getters
`getProTierLimit`, `getTeamTierLimitPerSeat` and
`getEnterpriseTierLimitPerSeat` live in billing/subscriptions/utils, which
is outside the provided sources; per the spec they read env-configured
per-tier dollar constants, collected here in one record. -/
structure TierConfig where
  pro : ℚ
  team : ℚ
  enterprise : ℚ
deriving DecidableEq

/-- Row of the subscription table (the columns the billing code reads). -/
structure SubRow where
  plan : String
  referenceId : String
  status : String
  seats : Option Nat
  stripeSubscriptionId : Option String
  metadata : Option EnterpriseMeta
deriving DecidableEq

/-- getPlanPricing (billing.ts lines 54-88). Returns the `basePrice` field
of the source's result object. -/
def getPlanPricing (cfg : TierConfig) (plan : String) (sub : Option SubRow) : ℚ :=
  if plan = "free" then 0
  else if plan = "pro" then cfg.pro
  else if plan = "team" then cfg.team
  else if plan = "enterprise" then
    match sub.bind (fun s => s.metadata) with
    | some m =>
      let perSeatPrice : Option ℚ :=
        match m.perSeatPrice with
        | some v => if jsTruthy v then parseFloatOfVal v else none
        | none => none
      match perSeatPrice with
      | some q => if q ≠ 0 ∧ 0 < q then q else cfg.enterprise
      | none => cfg.enterprise
    | none => cfg.enterprise
  else 0

/-- Row of the user table (the columns the billing code reads). -/
structure UserRow where
  id : String
  email : Option String
  stripeCustomerId : Option String
deriving DecidableEq

/-- Row of the member table. -/
structure MemberRow where
  organizationId : String
  userId : String
  role : String
deriving DecidableEq

/-- Row of the userStats table (the columns the billing code touches).
The cost columns are nullable decimals. -/
structure UserStatsRow where
  currentPeriodCost : Option ℚ
  lastPeriodCost : Option ℚ
  billingBlocked : Bool
deriving DecidableEq

/-- Remote Stripe invoice (the fields the billing code reads back). -/
structure StripeInvoice where
  id : String
  customer : String
  created : Nat
  status : String
  metadataType : Option String
  metadataBillingPeriod : Option String
  amountCents : ℤ
deriving DecidableEq

/-- Remote Stripe invoice item. -/
structure StripeInvoiceItem where
  customer : String
  subscriptionId : Option String
  amountCents : ℤ
  metadataType : String
  metadataBillingPeriod : Option String
deriving DecidableEq

/-- Remote Stripe state: invoices, pending invoice items, consumed
idempotency keys, and a counter for fresh invoice ids. -/
structure StripeState where
  invoices : List StripeInvoice
  items : List StripeInvoiceItem
  usedKeys : List String
  nextId : Nat
deriving DecidableEq

/-- Environment parameters of one run: the current unix timestamp, the
month formatter `new Date(ts).toISOString().slice(0, 7)`, the month-start
timestamp of a `YYYY-MM` string, and the Stripe-side outcome knobs (the
status a created invoice settles into under auto_advance, and whether the
explicit pay call succeeds). -/
structure BillingParams where
  now : Nat
  monthOf : Nat → String
  periodStartTs : String → Nat
  createStatus : String
  paySucceeds : Bool

/-- BillingResult (billing.ts lines 36-41). -/
structure BillingResult where
  success : Bool
  chargedAmount : Option ℚ
  invoiceId : Option String
  error : Option String
deriving DecidableEq

/-- createOverageBillingInvoice (billing.ts lines 150-313). Of the caller's
metadata record only the `billingPeriod` key is read anywhere, so the model
keeps just that key; note the source stores the caller's metadata (spread
into the invoice), not the computed default, so an invoice created with no
explicit billing period carries no billingPeriod tag. -/
def createOverageBillingInvoice (p : BillingParams) (st : StripeState)
    (customerId : String) (overageAmount : ℚ) (metaBillingPeriod : Option String) :
    BillingResult × StripeState :=
  if overageAmount ≤ 0 then
    ({ success := true, chargedAmount := some 0, invoiceId := none, error := none }, st)
  else
    let billingPeriod := jsOrStr metaBillingPeriod (p.monthOf p.now)
    let periodStartTimestamp := p.periodStartTs billingPeriod
    let recentInvoices := st.invoices.filter
      (fun i => decide (i.customer = customerId ∧ periodStartTimestamp ≤ i.created))
    let existingOverageInvoice := recentInvoices.find?
      (fun i => decide (i.metadataType = some "overage_billing" ∧
        i.metadataBillingPeriod = some billingPeriod ∧ i.status ≠ "void"))
    match existingOverageInvoice with
    | some inv =>
      ({ success := true, chargedAmount := some 0, invoiceId := some inv.id, error := none }, st)
    | none =>
      let item : StripeInvoiceItem :=
        { customer := customerId
          subscriptionId := none
          amountCents := jsRound (overageAmount * 100)
          metadataType := "overage_billing"
          metadataBillingPeriod := metaBillingPeriod }
      let invoice : StripeInvoice :=
        { id := "in_" ++ toString st.nextId
          customer := customerId
          created := p.now
          status := p.createStatus
          metadataType := some "overage_billing"
          metadataBillingPeriod := metaBillingPeriod
          amountCents := jsRound (overageAmount * 100) }
      let final1 := if invoice.status = "draft" then { invoice with status := "open" } else invoice
      let final2 :=
        if final1.status = "open" then
          if p.paySucceeds then { final1 with status := "paid" } else final1
        else final1
      ({ success := true
         chargedAmount := some overageAmount
         invoiceId := some final2.id
         error := none },
       { st with
         invoices := st.invoices ++ [final2]
         items := st.items ++ [item]
         nextId := st.nextId + 1 })

/-- Persistent store plus collaborator accessors: the relational tables the
billing code queries, the per-user stats map, the remote Stripe state, and
two accessors whose implementations are outside the provided sources. -/
structure Store where
  users : List UserRow
  orgs : List String
  membersT : List MemberRow
  subs : List SubRow
  stats : String → Option UserStatsRow
  usage : String → ℚ
  highestSub : String → Option SubRow

/-- Full state: local store plus remote Stripe state. -/
structure World where
  store : Store
  stripe : StripeState

/-- Modelled from the spec: getUserUsageData (billing/core/usage.ts is not
among the provided sources); per the spec it is the usage-data accessor
returning the subject's current-period usage, kept abstract as store data. -/
def getUserUsageData (st : Store) (userId : String) : ℚ := st.usage userId

/-- Modelled from the spec: getHighestPrioritySubscription
(billing/core/subscription.ts is not among the provided sources); per the
spec it selects the highest-priority active subscription of a user, kept
abstract as store data. -/
def getHighestPrioritySubscription (st : Store) (userId : String) : Option SubRow :=
  st.highestSub userId

/-- getOrganizationSubscription (billing.ts lines 21-34): first subscription
row whose referenceId is the organization and whose status is active. -/
def getOrganizationSubscription (st : Store) (organizationId : String) : Option SubRow :=
  st.subs.find? (fun s => decide (s.referenceId = organizationId ∧ s.status = "active"))

/-- Subscription lookup by Stripe subscription id, as used by the webhook
handlers (SQL equality, so a null column never matches). -/
def findSubByStripeId (st : Store) (sid : String) : Option SubRow :=
  st.subs.find? (fun s => decide (s.stripeSubscriptionId = some sid))

/-- Member user ids of an organization (plain member-table query, as in the
webhook handlers). -/
def membersOf (st : Store) (organizationId : String) : List String :=
  (st.membersT.filter (fun m => decide (m.organizationId = organizationId))).map
    (fun m => m.userId)

/-- Member user ids of an organization joined with the user table, as in
processOrganizationOverageBilling (inner join keeps only members whose user
row exists; user ids are assumed unique). -/
def membersWithUsers (st : Store) (organizationId : String) : List String :=
  (st.membersT.filter (fun m => decide (m.organizationId = organizationId ∧
    ∃ u ∈ st.users, u.id = m.userId))).map (fun m => m.userId)

/-- getStripeCustomerId (billing.ts lines 93-145): the user's customer id
when present, else the organization owner's customer id. -/
def getStripeCustomerId (st : Store) (referenceId : String) : Option String :=
  let userRecord := st.users.find? (fun u => decide (u.id = referenceId))
  match userRecord.bind (fun u => jsStrSome u.stripeCustomerId) with
  | some cid => some cid
  | none =>
    if referenceId ∈ st.orgs then
      let ownerRecord :=
        ((st.membersT.filter (fun m => decide (m.organizationId = referenceId ∧
          m.role = "owner"))).filterMap
          (fun m => st.users.find? (fun u => decide (u.id = m.userId)))).head?
      ownerRecord.bind (fun u => jsStrSome u.stripeCustomerId)
    else none

/-- Result record of calculateUserOverage (billing.ts lines 319-324). -/
structure OverageInfo where
  basePrice : ℚ
  actualUsage : ℚ
  overageAmount : ℚ
  plan : String
deriving DecidableEq

/-- calculateUserOverage (billing.ts lines 319-355). -/
def calculateUserOverage (cfg : TierConfig) (st : Store) (userId : String) :
    Option OverageInfo :=
  let subscription := getHighestPrioritySubscription st userId
  let actualUsage := getUserUsageData st userId
  match st.users.find? (fun u => decide (u.id = userId)) with
  | none => none
  | some _ =>
    let plan := jsOrStr (subscription.map (fun s => s.plan)) "free"
    let basePrice := getPlanPricing cfg plan subscription
    some { basePrice := basePrice
           actualUsage := actualUsage
           overageAmount := max 0 (actualUsage - basePrice)
           plan := plan }

/-- processUserOverageBilling (billing.ts lines 360-443). The customer email
synchronisation (lines 392-417) only writes to the remote customer record
and is elided. -/
def processUserOverageBilling (cfg : TierConfig) (p : BillingParams) (w : World)
    (userId : String) : BillingResult × World :=
  match calculateUserOverage cfg w.store userId with
  | none =>
    ({ success := false
       chargedAmount := none
       invoiceId := none
       error := some "Failed to calculate overage information" }, w)
  | some overageInfo =>
    if overageInfo.plan = "free" then
      ({ success := true, chargedAmount := some 0, invoiceId := none, error := none }, w)
    else if overageInfo.overageAmount ≤ 0 then
      ({ success := true, chargedAmount := some 0, invoiceId := none, error := none }, w)
    else
      match getStripeCustomerId w.store userId with
      | none =>
        ({ success := false
           chargedAmount := none
           invoiceId := none
           error := some "No Stripe customer ID found" }, w)
      | some stripeCustomerId =>
        let r := createOverageBillingInvoice p w.stripe stripeCustomerId
          overageInfo.overageAmount (some (p.monthOf p.now))
        (r.1, { w with stripe := r.2 })

/-- Quantities processOrganizationOverageBilling computes and logs for one
organization (billing.ts lines 516-546); exposed so theorems can speak
about the computed overage. -/
structure OrgOverageInfo where
  licensedSeats : Nat
  basePricePerSeat : ℚ
  baseSubscriptionAmount : ℚ
  totalTeamUsage : ℚ
  totalOverage : ℚ
deriving DecidableEq

/-- processOrganizationOverageBilling (billing.ts lines 448-596). The second
component carries the computed overage quantities (the values the source
logs); it is `none` on the paths that never reach the computation. The
organization owner email synchronisation (lines 468-497) is elided. -/
def processOrganizationOverageBilling (cfg : TierConfig) (p : BillingParams) (w : World)
    (organizationId : String) : BillingResult × Option OrgOverageInfo × World :=
  match getOrganizationSubscription w.store organizationId with
  | none =>
    ({ success := false
       chargedAmount := none
       invoiceId := none
       error := some "No valid subscription found" }, none, w)
  | some subscription =>
    if ¬ (subscription.plan = "team" ∨ subscription.plan = "enterprise") then
      ({ success := false
         chargedAmount := none
         invoiceId := none
         error := some "No valid subscription found" }, none, w)
    else
      match getStripeCustomerId w.store organizationId with
      | none =>
        ({ success := false
           chargedAmount := none
           invoiceId := none
           error := some "No Stripe customer ID found" }, none, w)
      | some stripeCustomerId =>
        let members := membersWithUsers w.store organizationId
        if members.isEmpty then
          ({ success := true, chargedAmount := some 0, invoiceId := none, error := none },
           none, w)
        else
          let basePricePerSeat := getPlanPricing cfg subscription.plan (some subscription)
          let licensedSeats := jsSeats subscription.seats
          let baseSubscriptionAmount := (licensedSeats : ℚ) * basePricePerSeat
          let totalTeamUsage :=
            members.foldl (fun acc m => acc + getUserUsageData w.store m) 0
          let totalOverage := max 0 (totalTeamUsage - baseSubscriptionAmount)
          let info : OrgOverageInfo :=
            { licensedSeats := licensedSeats
              basePricePerSeat := basePricePerSeat
              baseSubscriptionAmount := baseSubscriptionAmount
              totalTeamUsage := totalTeamUsage
              totalOverage := totalOverage }
          if totalOverage ≤ 0 then
            ({ success := true, chargedAmount := some 0, invoiceId := none, error := none },
             some info, w)
          else
            let r := createOverageBillingInvoice p w.stripe stripeCustomerId totalOverage
              (some (p.monthOf p.now))
            (r.1, some info, { w with stripe := r.2 })

/-- Per-user step of resetUsageForSubscription (invoices.ts lines 19-30 and
33-44): when a stats row exists, capture the current-period cost into
lastPeriodCost and zero currentPeriodCost; otherwise do nothing. -/
def resetStatsForUser (stats : String → Option UserStatsRow) (u : String) :
    String → Option UserStatsRow :=
  match stats u with
  | some row =>
    fun v =>
      if v = u then
        some { row with
               lastPeriodCost := some (jsOrZero row.currentPeriodCost)
               currentPeriodCost := some 0 }
      else stats v
  | none => stats

/-- resetUsageForSubscription (invoices.ts lines 11-46). -/
def resetUsageForSubscription (st : Store) (plan : String) (referenceId : String) : Store :=
  if plan = "team" ∨ plan = "enterprise" then
    { st with stats := (membersOf st referenceId).foldl resetStatsForUser st.stats }
  else
    { st with stats := resetStatsForUser st.stats referenceId }

/-- SQL `UPDATE userStats SET billingBlocked = b WHERE userId = u`:
touches the row only when it exists. -/
def setBlocked (stats : String → Option UserStatsRow) (u : String) (b : Bool) :
    String → Option UserStatsRow :=
  match stats u with
  | some row => fun v => if v = u then some { row with billingBlocked := b } else stats v
  | none => stats

/-- Loop of handleInvoicePaymentSucceeded lines 74-84: whether any member
has an existing stats row with billingBlocked set (for-with-break). -/
def anyMemberBlocked (st : Store) (l : List String) : Bool :=
  l.any (fun u =>
    match st.stats u with
    | some r => r.billingBlocked
    | none => false)

/-- wasBlocked computation of handleInvoicePaymentSucceeded
(invoices.ts lines 67-92). -/
def wasBlockedFor (st : Store) (sub : SubRow) : Bool :=
  if sub.plan = "team" ∨ sub.plan = "enterprise" then
    anyMemberBlocked st (membersOf st sub.referenceId)
  else
    match st.stats sub.referenceId with
    | some r => r.billingBlocked
    | none => false

/-- Invoice payload of a Stripe invoice webhook event (the fields the
handlers read; the enclosing event object only contributes its id to logs
and is elided). -/
structure InvoiceEvt where
  subscriptionId : Option String
  billingReason : Option String
  metadataType : Option String
  metadataBillingPeriod : Option String
  customer : String
  attemptCount : Option Nat
  linesPeriodEnd : Option Nat
deriving DecidableEq

/-- handleInvoicePaymentSucceeded (invoices.ts lines 52-119): unblock the
affected subjects, and reset usage only if one of them was blocked. -/
def handleInvoicePaymentSucceeded (st : Store) (inv : InvoiceEvt) : Store :=
  match jsStrSome inv.subscriptionId with
  | none => st
  | some stripeSubscriptionId =>
    match findSubByStripeId st stripeSubscriptionId with
    | none => st
    | some sub =>
      let wasBlocked := wasBlockedFor st sub
      let st1 :=
        if sub.plan = "team" ∨ sub.plan = "enterprise" then
          let unblocked := (membersOf st sub.referenceId).foldl
            (fun s u => setBlocked s u false) st.stats
          { st with stats := unblocked }
        else
          { st with stats := setBlocked st.stats sub.referenceId false }
      if wasBlocked then resetUsageForSubscription st1 sub.plan sub.referenceId else st1

/-- handleInvoicePaymentFailed (invoices.ts lines 125-196): for overage
invoices, block every affected subject once the attempt count reaches the
threshold (which, with the `attempt_count || 1` coercion and threshold 1,
is always). -/
def handleInvoicePaymentFailed (st : Store) (inv : InvoiceEvt) : Store :=
  if inv.metadataType ≠ some "overage_billing" then st
  else
    let attemptCount := jsAttempts inv.attemptCount
    if 1 ≤ attemptCount then
      let stripeSubscriptionId := inv.subscriptionId.getD ""
      if stripeSubscriptionId ≠ "" then
        match findSubByStripeId st stripeSubscriptionId with
        | some sub =>
          if sub.plan = "team" ∨ sub.plan = "enterprise" then
            let blocked := (membersOf st sub.referenceId).foldl
              (fun s u => setBlocked s u true) st.stats
            { st with stats := blocked }
          else
            { st with stats := setBlocked st.stats sub.referenceId true }
        | none => st
      else st
    else st

/-- addOverageItem helper of handleInvoiceCreated / handleInvoiceUpcoming
(invoices.ts lines 222-242 and 514-533): create a subscription-attached
overage invoice item under a deterministic idempotency key; a replayed key
is a no-op on the Stripe side. -/
def addOverageItem (sp : StripeState) (customerId subscriptionId : String)
    (amountDollars : ℚ) (billingPeriod : String) : StripeState :=
  let key := customerId ++ ":" ++ subscriptionId ++ ":" ++ billingPeriod ++ ":overage"
  if key ∈ sp.usedKeys then sp
  else
    { sp with
      items := sp.items ++
        [{ customer := customerId
           subscriptionId := some subscriptionId
           amountCents := jsRound (amountDollars * 100)
           metadataType := "overage_billing"
           metadataBillingPeriod := some billingPeriod }]
      usedKeys := sp.usedKeys ++ [key] }

/-- handleInvoiceCreated (invoices.ts lines 198-298): on a
subscription-cycle renewal invoice, attach the overage of the ending period
as an invoice item, then reset usage for the new period. -/
def handleInvoiceCreated (cfg : TierConfig) (p : BillingParams) (w : World)
    (inv : InvoiceEvt) : World :=
  match jsStrSome inv.subscriptionId with
  | none => w
  | some stripeSubscriptionId =>
    if inv.billingReason ≠ some "subscription_cycle" then w
    else
      match findSubByStripeId w.store stripeSubscriptionId with
      | none => w
      | some sub =>
        let periodEnd := jsOrTs inv.linesPeriodEnd p.now
        let billingPeriod := p.monthOf periodEnd
        if sub.plan = "team" ∨ sub.plan = "enterprise" then
          let members := membersOf w.store sub.referenceId
          let totalTeamUsage := members.foldl
            (fun acc m => acc + getUserUsageData w.store m) 0
          let licensedSeats := jsSeats sub.seats
          let basePrice := getPlanPricing cfg sub.plan (some sub)
          let baseSubscriptionAmount := (licensedSeats : ℚ) * basePrice
          let totalOverage := max 0 (totalTeamUsage - baseSubscriptionAmount)
          let w1 :=
            if 0 < totalOverage then
              let sp := addOverageItem w.stripe inv.customer stripeSubscriptionId
                totalOverage billingPeriod
              { w with stripe := sp }
            else w
          { w1 with store := resetUsageForSubscription w1.store sub.plan sub.referenceId }
        else
          let usage := getUserUsageData w.store sub.referenceId
          let basePrice := getPlanPricing cfg sub.plan (some sub)
          let overage := max 0 (usage - basePrice)
          let w1 :=
            if 0 < overage then
              let sp := addOverageItem w.stripe inv.customer stripeSubscriptionId
                overage billingPeriod
              { w with stripe := sp }
            else w
          { w1 with store := resetUsageForSubscription w1.store sub.plan sub.referenceId }

/-- handleInvoiceUpcoming (invoices.ts lines 488-592): attach the overage
of the running period to the upcoming renewal invoice; never touches local
usage counters. -/
def handleInvoiceUpcoming (cfg : TierConfig) (p : BillingParams) (w : World)
    (inv : InvoiceEvt) : World :=
  match jsStrSome inv.subscriptionId with
  | none => w
  | some stripeSubscriptionId =>
    match findSubByStripeId w.store stripeSubscriptionId with
    | none => w
    | some sub =>
      let billingPeriod := p.monthOf p.now
      if sub.plan = "team" ∨ sub.plan = "enterprise" then
        let members := membersOf w.store sub.referenceId
        let totalTeamUsage := members.foldl
          (fun acc m => acc + getUserUsageData w.store m) 0
        let licensedSeats := jsSeats sub.seats
        let basePrice := getPlanPricing cfg sub.plan (some sub)
        let baseSubscriptionAmount := (licensedSeats : ℚ) * basePrice
        let totalOverage := max 0 (totalTeamUsage - baseSubscriptionAmount)
        if 0 < totalOverage then
          let sp := addOverageItem w.stripe inv.customer stripeSubscriptionId
            totalOverage billingPeriod
          { w with stripe := sp }
        else w
      else
        let usage := getUserUsageData w.store sub.referenceId
        let basePrice := getPlanPricing cfg sub.plan (some sub)
        let overage := max 0 (usage - basePrice)
        if 0 < overage then
          let sp := addOverageItem w.stripe inv.customer stripeSubscriptionId
            overage billingPeriod
          { w with stripe := sp }
        else w

/-- Subjects whose usage counters a reset for the given subscription
touches: the organization members for pooled plans, the individual
reference subject otherwise. -/
def resetSubjects (st : Store) (plan : String) (referenceId : String) : List String :=
  if plan = "team" ∨ plan = "enterprise" then membersOf st referenceId else [referenceId]

/-! Helper lemmas shared by the claim theorems. -/

theorem foldl_add_map_sum (f : String → ℚ) (l : List String) :
    ∀ a : ℚ, l.foldl (fun acc m => acc + f m) a = a + (l.map f).sum := by
  induction l with
  | nil => intro a; simp
  | cons x t ih =>
    intro a
    simp only [List.foldl_cons, List.map_cons, List.sum_cons, ih]
    ring

theorem resetStatsForUser_apply (stats : String → Option UserStatsRow) (u v : String) :
    resetStatsForUser stats u v =
      if v = u then
        (stats u).map (fun r =>
          { r with
            lastPeriodCost := some (jsOrZero r.currentPeriodCost)
            currentPeriodCost := some 0 })
      else stats v := by
  unfold resetStatsForUser
  cases h : stats u with
  | none =>
    by_cases hv : v = u
    · subst hv; simp [h]
    · simp [hv]
  | some r =>
    by_cases hv : v = u <;> simp [h, hv]

theorem setBlocked_apply (stats : String → Option UserStatsRow) (u : String) (b : Bool)
    (v : String) :
    setBlocked stats u b v =
      if v = u then (stats u).map (fun r => { r with billingBlocked := b }) else stats v := by
  unfold setBlocked
  cases h : stats u with
  | none =>
    by_cases hv : v = u
    · subst hv; simp [h]
    · simp [hv]
  | some r =>
    by_cases hv : v = u <;> simp [h, hv]

theorem blockFold_apply (b : Bool) (l : List String) :
    ∀ (stats : String → Option UserStatsRow) (v : String),
      (l.foldl (fun s u => setBlocked s u b) stats) v =
        if v ∈ l then (stats v).map (fun r => { r with billingBlocked := b }) else stats v := by
  induction l with
  | nil => intro stats v; simp
  | cons a t ih =>
    intro stats v
    simp only [List.foldl_cons, ih (setBlocked stats a b) v, setBlocked_apply,
      List.mem_cons]
    by_cases hv : v = a
    · subst hv
      by_cases hvt : v ∈ t <;>
        simp only [hvt, true_or, if_true, Option.map_map] <;>
        cases stats v <;> rfl
    · by_cases hvt : v ∈ t <;> simp [hv, hvt]

theorem blockFold_currentPeriodCost (b : Bool) (l : List String)
    (stats : String → Option UserStatsRow) (v : String) :
    ((l.foldl (fun s u => setBlocked s u b) stats) v).map (fun r => r.currentPeriodCost) =
      (stats v).map (fun r => r.currentPeriodCost) := by
  rw [blockFold_apply]
  by_cases hv : v ∈ l
  · simp only [hv, if_true, Option.map_map]
    cases stats v <;> rfl
  · simp [hv]

theorem blockFold_lastPeriodCost (b : Bool) (l : List String)
    (stats : String → Option UserStatsRow) (v : String) :
    ((l.foldl (fun s u => setBlocked s u b) stats) v).map (fun r => r.lastPeriodCost) =
      (stats v).map (fun r => r.lastPeriodCost) := by
  rw [blockFold_apply]
  by_cases hv : v ∈ l
  · simp only [hv, if_true, Option.map_map]
    cases stats v <;> rfl
  · simp [hv]

theorem resetFold_frame (l : List String) :
    ∀ (stats : String → Option UserStatsRow) (v : String), v ∉ l →
      (l.foldl resetStatsForUser stats) v = stats v := by
  induction l with
  | nil => intro stats v _; simp
  | cons a t ih =>
    intro stats v hv
    simp only [List.mem_cons, not_or] at hv
    simp only [List.foldl_cons, ih (resetStatsForUser stats a) v hv.2,
      resetStatsForUser_apply, if_neg hv.1]

theorem resetFold_none (l : List String) :
    ∀ (stats : String → Option UserStatsRow) (v : String), stats v = none →
      (l.foldl resetStatsForUser stats) v = none := by
  induction l with
  | nil => intro stats v h; simpa using h
  | cons a t ih =>
    intro stats v h
    simp only [List.foldl_cons]
    apply ih
    rw [resetStatsForUser_apply]
    by_cases hv : v = a
    · subst hv; simp [h]
    · simp [hv, h]

theorem resetFold_keep_cur0 (l : List String) :
    ∀ (stats : String → Option UserStatsRow) (v : String) (r : UserStatsRow),
      stats v = some r → r.currentPeriodCost = some 0 →
      ∃ r2, (l.foldl resetStatsForUser stats) v = some r2 ∧
        r2.currentPeriodCost = some 0 ∧ r2.billingBlocked = r.billingBlocked := by
  induction l with
  | nil => intro stats v r h h0; exact ⟨r, by simpa using h, h0, rfl⟩
  | cons a t ih =>
    intro stats v r h h0
    simp only [List.foldl_cons]
    by_cases hv : v = a
    · subst hv
      have h1 : resetStatsForUser stats v v = some
          { currentPeriodCost := some 0
            lastPeriodCost := some (jsOrZero r.currentPeriodCost)
            billingBlocked := r.billingBlocked } := by
        rw [resetStatsForUser_apply, if_pos rfl, h]; rfl
      obtain ⟨r2, h2, h20, h2b⟩ := ih _ v _ h1 rfl
      exact ⟨r2, h2, h20, h2b⟩
    · exact ih _ v r (by rw [resetStatsForUser_apply, if_neg hv]; exact h) h0

theorem resetFold_mem_cur0 (l : List String) :
    ∀ (stats : String → Option UserStatsRow) (v : String) (r : UserStatsRow),
      v ∈ l → stats v = some r →
      ∃ r2, (l.foldl resetStatsForUser stats) v = some r2 ∧
        r2.currentPeriodCost = some 0 ∧ r2.billingBlocked = r.billingBlocked := by
  induction l with
  | nil => intro stats v r h; exact absurd h (List.not_mem_nil v)
  | cons a t ih =>
    intro stats v r hmem h
    simp only [List.foldl_cons]
    by_cases hv : v = a
    · subst hv
      have h1 : resetStatsForUser stats v v = some
          { currentPeriodCost := some 0
            lastPeriodCost := some (jsOrZero r.currentPeriodCost)
            billingBlocked := r.billingBlocked } := by
        rw [resetStatsForUser_apply, if_pos rfl, h]; rfl
      exact resetFold_keep_cur0 t _ v
        { currentPeriodCost := some 0
          lastPeriodCost := some (jsOrZero r.currentPeriodCost)
          billingBlocked := r.billingBlocked } h1 rfl
    · have hmem' : v ∈ t := by
        rcases List.mem_cons.mp hmem with h' | h'
        · exact absurd h' hv
        · exact h'
      exact ih _ v r hmem' (by rw [resetStatsForUser_apply, if_neg hv]; exact h)

theorem resetFold_keep00 (l : List String) :
    ∀ (stats : String → Option UserStatsRow) (v : String) (b : Bool),
      stats v = some { currentPeriodCost := some 0, lastPeriodCost := some 0, billingBlocked := b } →
      (l.foldl resetStatsForUser stats) v =
        some { currentPeriodCost := some 0, lastPeriodCost := some 0, billingBlocked := b } := by
  induction l with
  | nil => intro stats v b h; simpa using h
  | cons a t ih =>
    intro stats v b h
    simp only [List.foldl_cons]
    apply ih
    rw [resetStatsForUser_apply]
    by_cases hv : v = a
    · subst hv; rw [if_pos rfl, h]; rfl
    · rw [if_neg hv]; exact h

theorem resetFold_mem00 (l : List String) :
    ∀ (stats : String → Option UserStatsRow) (v : String) (r : UserStatsRow),
      v ∈ l → stats v = some r → r.currentPeriodCost = some 0 →
      (l.foldl resetStatsForUser stats) v =
        some { currentPeriodCost := some 0, lastPeriodCost := some 0, billingBlocked := r.billingBlocked } := by
  induction l with
  | nil => intro stats v r h; exact absurd h (List.not_mem_nil v)
  | cons a t ih =>
    intro stats v r hmem h h0
    simp only [List.foldl_cons]
    by_cases hv : v = a
    · subst hv
      apply resetFold_keep00
      rw [resetStatsForUser_apply, if_pos rfl, h]
      simp only [Option.map_some']
      rw [h0]
      rfl
    · have hmem' : v ∈ t := by
        rcases List.mem_cons.mp hmem with h' | h'
        · exact absurd h' hv
        · exact h'
      exact ih _ v r hmem' (by rw [resetStatsForUser_apply, if_neg hv]; exact h) h0

theorem jsTruthy_of_parse_pos (v : JsonVal) (q : ℚ)
    (hp : parseFloatOfVal v = some q) (hq : 0 < q) : jsTruthy v = true := by
  cases v with
  | jnum x =>
    simp only [parseFloatOfVal, Option.some.injEq] at hp
    subst hp
    simp only [jsTruthy]
    rw [if_neg (ne_of_gt hq)]
  | jstr s =>
    by_cases hs : s = ""
    · subst hs
      have hnone : jsParseFloat "" = none := by rfl
      simp only [parseFloatOfVal, hnone] at hp
      cases hp
    · simp [jsTruthy, hs]

/-! Concrete fixtures used by witnesses and counterexamples. -/

/-- Example tier configuration matching the documented defaults: pro $20,
team $40 per seat, enterprise default $100 per seat. -/
def cfgEx : TierConfig :=
  { pro := 20
    team := 40
    enterprise := 100 }

/-- Example run parameters. -/
def pEx : BillingParams :=
  { now := 100
    monthOf := fun _ => "2026-10"
    periodStartTs := fun _ => 0
    createStatus := "open"
    paySucceeds := true }

/-- Empty remote Stripe state. -/
def emptyStripe : StripeState :=
  { invoices := []
    items := []
    usedKeys := []
    nextId := 0 }

/-- Example active pro subscription of user u1. -/
def proSubEx : SubRow :=
  { plan := "pro"
    referenceId := "u1"
    status := "active"
    seats := none
    stripeSubscriptionId := some "sub1"
    metadata := none }

/-- Example store: one pro user u1 with current usage 35. -/
def stC2 : Store :=
  { users := [{ id := "u1", email := none, stripeCustomerId := some "cus1" }]
    orgs := []
    membersT := []
    subs := [proSubEx]
    stats := fun _ => none
    usage := fun u => if u = "u1" then 35 else 0
    highestSub := fun u => if u = "u1" then some proSubEx else none }

/-- Example active enterprise subscription of organization o1 with two
licensed seats and a custom $75 per-seat price in metadata. -/
def entSubEx : SubRow :=
  { plan := "enterprise"
    referenceId := "o1"
    status := "active"
    seats := some 2
    stripeSubscriptionId := some "sub2"
    metadata := some { perSeatPrice := some (JsonVal.jstr "75") } }

/-- Example store: organization o1 on the enterprise subscription with
members u1 (owner, usage 120) and u2 (usage 80). -/
def stC6 : Store :=
  { users := [{ id := "u1", email := none, stripeCustomerId := some "cus1" },
              { id := "u2", email := none, stripeCustomerId := none }]
    orgs := ["o1"]
    membersT := [{ organizationId := "o1", userId := "u1", role := "owner" },
                 { organizationId := "o1", userId := "u2", role := "member" }]
    subs := [entSubEx]
    stats := fun _ => none
    usage := fun u => if u = "u1" then 120 else if u = "u2" then 80 else 0
    highestSub := fun _ => none }

/-- Example world around `stC6`. -/
def wC6 : World :=
  { store := stC6
    stripe := emptyStripe }

/-- Example store: u1 has no subscription (free plan) and current usage 35. -/
def stC7 : Store :=
  { users := [{ id := "u1", email := none, stripeCustomerId := some "cus1" }]
    orgs := []
    membersT := []
    subs := []
    stats := fun _ => none
    usage := fun u => if u = "u1" then 35 else 0
    highestSub := fun _ => none }

/-- Example world around `stC7`. -/
def wC7 : World :=
  { store := stC7
    stripe := emptyStripe }

/-! Claim theorems. -/

/-- C2: for every existing user, calculateUserOverage returns a result whose
overageAmount equals max(0, currentUsage − basePrice), with actualUsage the
accessor value, and the overage is never negative. -/
theorem calculateUserOverage_max_spec (cfg : TierConfig) (st : Store) (userId : String)
    (h : (st.users.find? (fun u => decide (u.id = userId))).isSome) :
    ∃ info, calculateUserOverage cfg st userId = some info ∧
      info.overageAmount = max 0 (info.actualUsage - info.basePrice) ∧
      info.actualUsage = getUserUsageData st userId ∧
      0 ≤ info.overageAmount := by
  obtain ⟨u, hu⟩ := Option.isSome_iff_exists.mp h
  simp only [calculateUserOverage, hu]
  exact ⟨_, rfl, rfl, rfl, le_max_left _ _⟩

/-- Witness for C2: the pro user u1 with base $20 and usage $35 satisfies
the theorem, and the computed overage is $15. -/
theorem calculateUserOverage_max_spec_witness :
    (∃ info, calculateUserOverage cfgEx stC2 "u1" = some info ∧
      info.overageAmount = max 0 (info.actualUsage - info.basePrice) ∧
      info.actualUsage = getUserUsageData stC2 "u1" ∧
      0 ≤ info.overageAmount) ∧
    (calculateUserOverage cfgEx stC2 "u1").map (fun i => i.overageAmount) = some 15 := by
  refine ⟨calculateUserOverage_max_spec cfgEx stC2 "u1" (by decide), ?_⟩
  have h1 : calculateUserOverage cfgEx stC2 "u1" =
      some { basePrice := 20, actualUsage := 35, overageAmount := max 0 (35 - 20),
             plan := "pro" } := rfl
  rw [h1]
  norm_num

theorem getPlanPricing_enterprise_eq (cfg : TierConfig) (sub : SubRow) :
    getPlanPricing cfg "enterprise" (some sub) =
      (match sub.metadata with
       | some m =>
         match (match m.perSeatPrice with
                | some v => if jsTruthy v then parseFloatOfVal v else none
                | none => none) with
         | some q => if q ≠ 0 ∧ 0 < q then q else cfg.enterprise
         | none => cfg.enterprise
       | none => cfg.enterprise) := by
  simp [getPlanPricing]

/-- C6: for an enterprise subscription, getPlanPricing returns the metadata
perSeatPrice whenever it parses to a positive number, and otherwise
(absent, non-numeric, zero or negative) the configured enterprise default. -/
theorem getPlanPricing_enterprise_spec (cfg : TierConfig) (sub : SubRow) :
    (∀ m v q, sub.metadata = some m → m.perSeatPrice = some v →
      parseFloatOfVal v = some q → 0 < q →
      getPlanPricing cfg "enterprise" (some sub) = q) ∧
    ((¬ ∃ m v q, sub.metadata = some m ∧ m.perSeatPrice = some v ∧
        parseFloatOfVal v = some q ∧ 0 < q) →
      getPlanPricing cfg "enterprise" (some sub) = cfg.enterprise) := by
  constructor
  · intro m v q hm hv hp hq
    have ht := jsTruthy_of_parse_pos v q hp hq
    simp only [getPlanPricing_enterprise_eq, hm, hv, ht, if_true, hp]
    rw [if_pos ⟨ne_of_gt hq, hq⟩]
  · intro hno
    rcases hm : sub.metadata with _ | m
    · simp [getPlanPricing_enterprise_eq, hm]
    · rcases hv : m.perSeatPrice with _ | v
      · simp [getPlanPricing_enterprise_eq, hm, hv]
      · rcases ht : jsTruthy v with _ | _
        · simp [getPlanPricing_enterprise_eq, hm, hv, ht]
        · rcases hp : parseFloatOfVal v with _ | q
          · simp [getPlanPricing_enterprise_eq, hm, hv, ht, hp]
          · by_cases hq : 0 < q
            · exact absurd ⟨m, v, q, hm, hv, hp, hq⟩ hno
            · simp only [getPlanPricing_enterprise_eq, hm, hv, ht, if_true, hp]
              rw [if_neg]
              intro hcon
              exact hq hcon.2

/-- Witness for C6: the enterprise subscription with metadata
perSeatPrice "75" gets base price 75, and with 2 seats and member usage
120 + 80 = 200 the organization overage computation yields base 150 and
overage 50. -/
theorem getPlanPricing_enterprise_spec_witness :
    getPlanPricing cfgEx "enterprise" (some entSubEx) = 75 ∧
    (processOrganizationOverageBilling cfgEx pEx wC6 "o1").2.1 =
      some { licensedSeats := 2
             basePricePerSeat := 75
             baseSubscriptionAmount := 150
             totalTeamUsage := 200
             totalOverage := 50 } := by
  have hp75 : parseFloatOfVal (JsonVal.jstr "75") = some 75 := by
    have h : parseFloatOfVal (JsonVal.jstr "75") = some ((1 : ℚ) *
        ((digitsToNat ['7', '5'] : ℚ) + (digitsToNat [] : ℚ) / (10 : ℚ) ^ (0 : Nat))) := rfl
    have h2 : digitsToNat ['7', '5'] = 75 := by decide
    have h3 : digitsToNat [] = 0 := by decide
    rw [h, h2, h3]
    norm_num
  have h75 : getPlanPricing cfgEx "enterprise" (some entSubEx) = 75 :=
    (getPlanPricing_enterprise_spec cfgEx entSubEx).1
      { perSeatPrice := some (JsonVal.jstr "75") } (JsonVal.jstr "75") 75 rfl rfl
      hp75 (by norm_num)
  refine ⟨h75, ?_⟩
  have hsub : getOrganizationSubscription stC6 "o1" = some entSubEx := rfl
  have hcus : getStripeCustomerId stC6 "o1" = some "cus1" := rfl
  have hmem : membersWithUsers stC6 "o1" = ["u1", "u2"] := rfl
  have hu1 : getUserUsageData stC6 "u1" = 120 := rfl
  have hu2 : getUserUsageData stC6 "u2" = 80 := rfl
  have hplan : entSubEx.plan = "enterprise" := rfl
  have hseats : jsSeats entSubEx.seats = 2 := rfl
  norm_num [processOrganizationOverageBilling, wC6, hsub, hcus, hmem, hu1, hu2, hplan,
    hseats, h75, createOverageBillingInvoice]

/-- C7 counterexample: a free-plan user with usage 35 gets computed
overageAmount 35 from calculateUserOverage, not 0, refuting the claim that
the computed overage is always 0 regardless of usage. -/
theorem calculateUserOverage_free_counterexample :
    (calculateUserOverage cfgEx stC7 "u1").map (fun i => i.plan) = some "free" ∧
    (calculateUserOverage cfgEx stC7 "u1").map (fun i => i.overageAmount) = some 35 ∧
    ¬ (calculateUserOverage cfgEx stC7 "u1").map (fun i => i.overageAmount) = some 0 := by
  have h1 : calculateUserOverage cfgEx stC7 "u1" =
      some { basePrice := 0, actualUsage := 35, overageAmount := max 0 (35 - 0),
             plan := "free" } := rfl
  rw [h1]
  norm_num

/-- C7 (amended): for the free plan, getPlanPricing returns base price 0 and
processUserOverageBilling returns success with chargedAmount 0 without
touching any state, while calculateUserOverage reports the full usage as
overageAmount (max(0, usage − 0)). -/
theorem freePlan_billing_spec (cfg : TierConfig) (p : BillingParams) (w : World)
    (userId : String)
    (huser : (w.store.users.find? (fun u => decide (u.id = userId))).isSome)
    (hfree : jsOrStr ((getHighestPrioritySubscription w.store userId).map
      (fun s => s.plan)) "free" = "free") :
    (∀ s : Option SubRow, getPlanPricing cfg "free" s = 0) ∧
    processUserOverageBilling cfg p w userId =
      ({ success := true, chargedAmount := some 0, invoiceId := none, error := none }, w) ∧
    (calculateUserOverage cfg w.store userId).map (fun i => i.overageAmount) =
      some (max 0 (w.store.usage userId)) := by
  obtain ⟨u, hu⟩ := Option.isSome_iff_exists.mp huser
  have hcalc : calculateUserOverage cfg w.store userId = some
      { basePrice := 0
        actualUsage := w.store.usage userId
        overageAmount := max 0 (w.store.usage userId)
        plan := "free" } := by
    simp [calculateUserOverage, hu, getUserUsageData, hfree, getPlanPricing]
  refine ⟨fun s => by simp [getPlanPricing], ?_, ?_⟩
  · simp only [processUserOverageBilling, hcalc]
    norm_num
  · rw [hcalc]
    rfl

/-- Witness for C7 (amended): the concrete free user u1 with usage 35. -/
theorem freePlan_billing_spec_witness :
    (∀ s : Option SubRow, getPlanPricing cfgEx "free" s = 0) ∧
    processUserOverageBilling cfgEx pEx wC7 "u1" =
      ({ success := true, chargedAmount := some 0, invoiceId := none, error := none }, wC7) ∧
    (calculateUserOverage cfgEx wC7.store "u1").map (fun i => i.overageAmount) =
      some (max 0 (wC7.store.usage "u1")) :=
  freePlan_billing_spec cfgEx pEx wC7 "u1" (by decide) (by decide)

/-- Example active team subscription of organization o2 with three licensed
seats. -/
def teamSubEx : SubRow :=
  { plan := "team"
    referenceId := "o2"
    status := "active"
    seats := some 3
    stripeSubscriptionId := some "sub3"
    metadata := none }

/-- Example store: organization o2 on the team subscription with members
u1 (owner, usage 50), u2 (usage 40) and u3 (usage 45). -/
def stC1 : Store :=
  { users := [{ id := "u1", email := none, stripeCustomerId := some "cus1" },
              { id := "u2", email := none, stripeCustomerId := none },
              { id := "u3", email := none, stripeCustomerId := none }]
    orgs := ["o2"]
    membersT := [{ organizationId := "o2", userId := "u1", role := "owner" },
                 { organizationId := "o2", userId := "u2", role := "member" },
                 { organizationId := "o2", userId := "u3", role := "member" }]
    subs := [teamSubEx]
    stats := fun _ => none
    usage := fun u => if u = "u1" then 50 else if u = "u2" then 40 else
      if u = "u3" then 45 else 0
    highestSub := fun _ => none }

/-- Example world around `stC1`. -/
def wC1 : World :=
  { store := stC1
    stripe := emptyStripe }

/-- C1: for an organization with an active team or enterprise subscription,
the overage computed by processOrganizationOverageBilling is
max(0, sum of member usage − licensedSeats × basePricePerSeat) with
licensedSeats from the subscription record (default 1), and the
baseSubscriptionAmount does not depend on the member list (so changing the
member count with fixed licensed seats leaves it unchanged). -/
theorem processOrganizationOverageBilling_overage_spec (cfg : TierConfig) (p : BillingParams)
    (w : World) (organizationId : String) (sub : SubRow)
    (h1 : getOrganizationSubscription w.store organizationId = some sub)
    (h2 : sub.plan = "team" ∨ sub.plan = "enterprise")
    (h3 : (getStripeCustomerId w.store organizationId).isSome)
    (h4 : membersWithUsers w.store organizationId ≠ []) :
    (processOrganizationOverageBilling cfg p w organizationId).2.1 = some
      { licensedSeats := jsSeats sub.seats
        basePricePerSeat := getPlanPricing cfg sub.plan (some sub)
        baseSubscriptionAmount := (jsSeats sub.seats : ℚ) * getPlanPricing cfg sub.plan (some sub)
        totalTeamUsage := ((membersWithUsers w.store organizationId).map
          (fun m => getUserUsageData w.store m)).sum
        totalOverage := max 0 (((membersWithUsers w.store organizationId).map
            (fun m => getUserUsageData w.store m)).sum -
          (jsSeats sub.seats : ℚ) * getPlanPricing cfg sub.plan (some sub)) } ∧
    ∀ w2 : World, getOrganizationSubscription w2.store organizationId = some sub →
      (getStripeCustomerId w2.store organizationId).isSome →
      membersWithUsers w2.store organizationId ≠ [] →
      (processOrganizationOverageBilling cfg p w2 organizationId).2.1.map
          (fun i => i.baseSubscriptionAmount) =
        (processOrganizationOverageBilling cfg p w organizationId).2.1.map
          (fun i => i.baseSubscriptionAmount) := by
  suffices hmain : ∀ w3 : World, getOrganizationSubscription w3.store organizationId = some sub →
      (getStripeCustomerId w3.store organizationId).isSome →
      membersWithUsers w3.store organizationId ≠ [] →
      (processOrganizationOverageBilling cfg p w3 organizationId).2.1 = some
        { licensedSeats := jsSeats sub.seats
          basePricePerSeat := getPlanPricing cfg sub.plan (some sub)
          baseSubscriptionAmount :=
            (jsSeats sub.seats : ℚ) * getPlanPricing cfg sub.plan (some sub)
          totalTeamUsage := ((membersWithUsers w3.store organizationId).map
            (fun m => getUserUsageData w3.store m)).sum
          totalOverage := max 0 (((membersWithUsers w3.store organizationId).map
              (fun m => getUserUsageData w3.store m)).sum -
            (jsSeats sub.seats : ℚ) * getPlanPricing cfg sub.plan (some sub)) } by
    refine ⟨hmain w h1 h3 h4, fun w2 h1x h3x h4x => ?_⟩
    rw [hmain w2 h1x h3x h4x, hmain w h1 h3 h4]
    rfl
  intro w3 h1x h3x h4x
  obtain ⟨c, hc⟩ := Option.isSome_iff_exists.mp h3x
  have hne : (membersWithUsers w3.store organizationId).isEmpty = false := by
    cases hl : membersWithUsers w3.store organizationId with
    | nil => exact absurd hl h4x
    | cons a t => rfl
  have hfold := foldl_add_map_sum (fun m => getUserUsageData w3.store m)
    (membersWithUsers w3.store organizationId) 0
  simp only [processOrganizationOverageBilling, h1x, if_neg (not_not_intro h2), hc, hne,
    Bool.false_eq_true, if_false, hfold, zero_add]
  split <;> rfl

/-- Witness for C1: the team of 3 licensed seats at $40 per seat with member
usages 50, 40 and 45 has base amount 120 and total overage 15. -/
theorem processOrganizationOverageBilling_overage_spec_witness :
    (processOrganizationOverageBilling cfgEx pEx wC1 "o2").2.1.map
      (fun i => i.totalOverage) = some 15 ∧
    (processOrganizationOverageBilling cfgEx pEx wC1 "o2").2.1.map
      (fun i => i.baseSubscriptionAmount) = some 120 := by
  have h := processOrganizationOverageBilling_overage_spec cfgEx pEx wC1 "o2" teamSubEx
    rfl (Or.inl rfl) (by decide) (by decide)
  rw [h.1]
  have hm : membersWithUsers stC1 "o2" = ["u1", "u2", "u3"] := rfl
  have hu1 : getUserUsageData stC1 "u1" = 50 := rfl
  have hu2 : getUserUsageData stC1 "u2" = 40 := rfl
  have hu3 : getUserUsageData stC1 "u3" = 45 := rfl
  have hprice : getPlanPricing cfgEx teamSubEx.plan (some teamSubEx) = 40 := rfl
  have hseats : jsSeats teamSubEx.seats = 3 := rfl
  have hws : wC1.store = stC1 := rfl
  constructor <;>
    norm_num [hws, hm, hu1, hu2, hu3, hprice, hseats]

/-- C4 counterexample: when the billing period is left to default (no
billingPeriod key in the caller metadata), the created invoice carries no
billingPeriod tag, so a second call for the same customer and (default)
billing period fails to find it and creates a second invoice with a full
charge, violating the at-most-one-artifact claim. -/
theorem createOverageBillingInvoice_duplicate_counterexample :
    (createOverageBillingInvoice pEx
        (createOverageBillingInvoice pEx emptyStripe "cus1" 10 none).2
        "cus1" 10 none).2.invoices.length = 2 ∧
    (createOverageBillingInvoice pEx
        (createOverageBillingInvoice pEx emptyStripe "cus1" 10 none).2
        "cus1" 10 none).1.chargedAmount = some 10 := by
  constructor <;> rfl

/-- C4 (amended): when the caller passes a non-empty billingPeriod in the
metadata (as both repository callers do) and the period start is not after
the call time, a second createOverageBillingInvoice call for the same
customer and billing period leaves the Stripe state unchanged (no new
invoice) and returns success with chargedAmount 0 and the id of an existing
non-voided overage invoice for that period. -/
theorem createOverageBillingInvoice_idempotent (p : BillingParams) (st0 st1 : StripeState)
    (r1 : BillingResult) (c : String) (amt : ℚ) (P : String)
    (hfirst : createOverageBillingInvoice p st0 c amt (some P) = (r1, st1))
    (hP : P ≠ "")
    (hts : p.periodStartTs P ≤ p.now)
    (hcs : p.createStatus ≠ "void")
    (hamt : 0 < amt) :
    (createOverageBillingInvoice p st1 c amt (some P)).2 = st1 ∧
    (createOverageBillingInvoice p st1 c amt (some P)).1.success = true ∧
    (createOverageBillingInvoice p st1 c amt (some P)).1.chargedAmount = some 0 ∧
    ∃ e ∈ st1.invoices,
      (createOverageBillingInvoice p st1 c amt (some P)).1.invoiceId = some e.id ∧
      e.customer = c ∧ e.metadataType = some "overage_billing" ∧
      e.metadataBillingPeriod = some P ∧ e.status ≠ "void" := by
  have hble : ¬ amt ≤ 0 := not_le.mpr hamt
  have hbp : jsOrStr (some P) (p.monthOf p.now) = P := by simp [jsOrStr, hP]
  simp only [createOverageBillingInvoice, if_neg hble, hbp] at hfirst ⊢
  cases hfind : (st0.invoices.filter
      (fun i => decide (i.customer = c ∧ p.periodStartTs P ≤ i.created))).find?
      (fun i => decide (i.metadataType = some "overage_billing" ∧
        i.metadataBillingPeriod = some P ∧ i.status ≠ "void")) with
  | some inv =>
    rw [hfind] at hfirst
    obtain ⟨hr1, hst1⟩ := Prod.mk.injEq .. ▸ hfirst
    subst hst1
    rw [hfind]
    have hpred := List.find?_some hfind
    have hmem := List.mem_of_find?_eq_some hfind
    rw [List.mem_filter] at hmem
    simp only [decide_eq_true_eq] at hpred hmem
    exact ⟨rfl, rfl, rfl, inv, hmem.1, rfl, hmem.2.1, hpred.1, hpred.2.1, hpred.2.2⟩
  | none =>
    rw [hfind] at hfirst
    obtain ⟨hr1, hst1⟩ := Prod.mk.injEq .. ▸ hfirst
    have hinv : ∃ F : StripeInvoice, st1.invoices = st0.invoices ++ [F] ∧
        F.customer = c ∧ F.created = p.now ∧ F.metadataType = some "overage_billing" ∧
        F.metadataBillingPeriod = some P ∧ F.status ≠ "void" := by
      refine ⟨_, congrArg StripeState.invoices hst1.symm, ?_, ?_, ?_, ?_, ?_⟩ <;>
        split_ifs <;> simp_all
    obtain ⟨F, hFinv, hFc, hFcr, hFt, hFbp, hFs⟩ := hinv
    have hfilterF : (List.filter
        (fun i => decide (i.customer = c ∧ p.periodStartTs P ≤ i.created)) [F]) = [F] := by
      simp [hFc, hFcr, hts]
    have hfind2 : (st1.invoices.filter
        (fun i => decide (i.customer = c ∧ p.periodStartTs P ≤ i.created))).find?
        (fun i => decide (i.metadataType = some "overage_billing" ∧
          i.metadataBillingPeriod = some P ∧ i.status ≠ "void")) = some F := by
      rw [hFinv, List.filter_append, List.find?_append, hfind, hfilterF]
      simp [List.find?, hFt, hFbp, hFs]
    rw [hfind2]
    exact ⟨rfl, rfl, rfl, F, by rw [hFinv]; exact List.mem_append_right _ (by simp), rfl,
      hFc, hFt, hFbp, hFs⟩

/-- Witness for C4 (amended): the concrete second call after billing $10 to
cus1 for period 2026-10. -/
theorem createOverageBillingInvoice_idempotent_witness :
    (createOverageBillingInvoice pEx
        (createOverageBillingInvoice pEx emptyStripe "cus1" 10 (some "2026-10")).2
        "cus1" 10 (some "2026-10")).2 =
      (createOverageBillingInvoice pEx emptyStripe "cus1" 10 (some "2026-10")).2 ∧
    (createOverageBillingInvoice pEx
        (createOverageBillingInvoice pEx emptyStripe "cus1" 10 (some "2026-10")).2
        "cus1" 10 (some "2026-10")).1.success = true ∧
    (createOverageBillingInvoice pEx
        (createOverageBillingInvoice pEx emptyStripe "cus1" 10 (some "2026-10")).2
        "cus1" 10 (some "2026-10")).1.chargedAmount = some 0 ∧
    ∃ e ∈ (createOverageBillingInvoice pEx emptyStripe "cus1" 10 (some "2026-10")).2.invoices,
      (createOverageBillingInvoice pEx
          (createOverageBillingInvoice pEx emptyStripe "cus1" 10 (some "2026-10")).2
          "cus1" 10 (some "2026-10")).1.invoiceId = some e.id ∧
      e.customer = "cus1" ∧ e.metadataType = some "overage_billing" ∧
      e.metadataBillingPeriod = some "2026-10" ∧ e.status ≠ "void" :=
  createOverageBillingInvoice_idempotent pEx emptyStripe _ _ "cus1" 10 "2026-10" rfl
    (by decide) (by decide) (by decide) (by decide)

/-! Additional helper lemmas for the webhook handler claims. -/

theorem setBlocked_currentPeriodCost (stats : String → Option UserStatsRow) (u : String)
    (b : Bool) (v : String) :
    ((setBlocked stats u b) v).map (fun r => r.currentPeriodCost) =
      (stats v).map (fun r => r.currentPeriodCost) := by
  rw [setBlocked_apply]
  by_cases hv : v = u
  · subst hv; cases stats v <;> simp
  · simp [hv]

theorem setBlocked_lastPeriodCost (stats : String → Option UserStatsRow) (u : String)
    (b : Bool) (v : String) :
    ((setBlocked stats u b) v).map (fun r => r.lastPeriodCost) =
      (stats v).map (fun r => r.lastPeriodCost) := by
  rw [setBlocked_apply]
  by_cases hv : v = u
  · subst hv; cases stats v <;> simp
  · simp [hv]

theorem setBlocked_idem (stats : String → Option UserStatsRow) (u : String) (b : Bool) :
    setBlocked (setBlocked stats u b) u b = setBlocked stats u b := by
  funext v
  rw [setBlocked_apply, setBlocked_apply, setBlocked_apply, if_pos rfl]
  by_cases hv : v = u
  · subst hv
    simp only [if_pos rfl, Option.map_map]
    cases stats v <;> rfl
  · simp [hv]

theorem blockFold_idem (b : Bool) (l : List String) (stats : String → Option UserStatsRow) :
    l.foldl (fun s u => setBlocked s u b) (l.foldl (fun s u => setBlocked s u b) stats) =
      l.foldl (fun s u => setBlocked s u b) stats := by
  funext v
  rw [blockFold_apply, blockFold_apply]
  by_cases hv : v ∈ l
  · simp only [hv, if_true]
    cases stats v <;> rfl
  · simp [hv]

theorem one_le_jsAttempts (o : Option Nat) : 1 ≤ jsAttempts o := by
  unfold jsAttempts
  rcases o with _ | (_ | n)
  · exact le_refl 1
  · exact le_refl 1
  · exact Nat.succ_le_succ (Nat.zero_le n)

/-- Characterization of handleInvoicePaymentFailed on the blocking path. -/
theorem handleInvoicePaymentFailed_eq_of_tag (st : Store) (inv : InvoiceEvt) (sid : String)
    (sub : SubRow)
    (htag : inv.metadataType = some "overage_billing")
    (hsid : inv.subscriptionId.getD "" = sid)
    (hne : sid ≠ "")
    (hsub : findSubByStripeId st sid = some sub) :
    handleInvoicePaymentFailed st inv =
      (if sub.plan = "team" ∨ sub.plan = "enterprise" then
        { st with stats := (membersOf st sub.referenceId).foldl (fun s u => setBlocked s u true) st.stats }
      else { st with stats := setBlocked st.stats sub.referenceId true }) := by
  simp only [handleInvoicePaymentFailed]
  rw [if_neg (not_not_intro htag), if_pos (one_le_jsAttempts inv.attemptCount), hsid,
    if_pos hne]
  simp only [hsub]

/-- Characterization of handleInvoicePaymentSucceeded on the matched path. -/
theorem handleInvoicePaymentSucceeded_eq (st : Store) (inv : InvoiceEvt) (sid : String)
    (sub : SubRow)
    (h1 : jsStrSome inv.subscriptionId = some sid)
    (h2 : findSubByStripeId st sid = some sub) :
    handleInvoicePaymentSucceeded st inv =
      (if wasBlockedFor st sub = true then
        resetUsageForSubscription
          (if sub.plan = "team" ∨ sub.plan = "enterprise" then
            { st with stats := (membersOf st sub.referenceId).foldl (fun s u => setBlocked s u false) st.stats }
          else { st with stats := setBlocked st.stats sub.referenceId false })
          sub.plan sub.referenceId
      else
        (if sub.plan = "team" ∨ sub.plan = "enterprise" then
          { st with stats := (membersOf st sub.referenceId).foldl (fun s u => setBlocked s u false) st.stats }
        else { st with stats := setBlocked st.stats sub.referenceId false })) := by
  simp only [handleInvoicePaymentSucceeded, h1, h2]

/-- Example store: individual subject u1 with current cost 5 and last cost 1. -/
def stC5 : Store :=
  { users := []
    orgs := []
    membersT := []
    subs := []
    stats := fun u => if u = "u1" then
        some { currentPeriodCost := some 5, lastPeriodCost := some 1, billingBlocked := false }
      else none
    usage := fun _ => 0
    highestSub := fun _ => none }

/-- C5 counterexample: for a subject with current cost 5, the first reset
captures lastPeriodCost = 5, but the second reset overwrites it with 0 —
contradicting the claim that the first capture survives a second reset. -/
theorem resetUsageForSubscription_twice_counterexample :
    ((resetUsageForSubscription stC5 "pro" "u1").stats "u1").map
      (fun r => r.lastPeriodCost) = some (some 5) ∧
    ((resetUsageForSubscription (resetUsageForSubscription stC5 "pro" "u1") "pro"
        "u1").stats "u1").map (fun r => r.lastPeriodCost) = some (some 0) := by
  constructor <;> rfl

/-- C5 (amended): running the reset twice on the same subscription leaves
every affected subject with an existing stats row at currentPeriodCost = 0
and lastPeriodCost = 0: the second reset captures the already-zeroed current
cost, so the first capture survives only when it was 0. -/
theorem resetUsageForSubscription_twice (st : Store) (plan referenceId : String) (u : String)
    (hmem : u ∈ resetSubjects st plan referenceId)
    (hrow : (st.stats u).isSome) :
    ∃ r, (resetUsageForSubscription (resetUsageForSubscription st plan referenceId) plan
        referenceId).stats u = some r ∧
      r.currentPeriodCost = some 0 ∧ r.lastPeriodCost = some 0 := by
  by_cases hp : plan = "team" ∨ plan = "enterprise"
  · have hsub : resetSubjects st plan referenceId = membersOf st referenceId := by
      simp [resetSubjects, hp]
    rw [hsub] at hmem
    obtain ⟨r, hr⟩ := Option.isSome_iff_exists.mp hrow
    have hstep1 : (resetUsageForSubscription st plan referenceId).stats =
        (membersOf st referenceId).foldl resetStatsForUser st.stats := by
      simp [resetUsageForSubscription, hp]
    have hmembers : membersOf (resetUsageForSubscription st plan referenceId) referenceId =
        membersOf st referenceId := by
      unfold resetUsageForSubscription
      rw [if_pos hp]
      rfl
    have hstep2 : (resetUsageForSubscription (resetUsageForSubscription st plan referenceId)
        plan referenceId).stats = (membersOf st referenceId).foldl resetStatsForUser
          ((membersOf st referenceId).foldl resetStatsForUser st.stats) := by
      conv_lhs => rw [resetUsageForSubscription]
      rw [if_pos hp]
      simp only [hmembers, hstep1]
    rw [hstep2]
    obtain ⟨r2, h2, h20, _⟩ := resetFold_mem_cur0 (membersOf st referenceId) st.stats u r
      hmem hr
    exact ⟨_, resetFold_mem00 (membersOf st referenceId) _ u r2 hmem h2 h20, rfl, rfl⟩
  · have hsub : resetSubjects st plan referenceId = [referenceId] := by
      simp [resetSubjects, hp]
    rw [hsub, List.mem_singleton] at hmem
    subst hmem
    obtain ⟨r, hr⟩ := Option.isSome_iff_exists.mp hrow
    have hstep1 : (resetUsageForSubscription st plan u).stats =
        resetStatsForUser st.stats u := by
      simp [resetUsageForSubscription, hp]
    have hstep2 : (resetUsageForSubscription (resetUsageForSubscription st plan u)
        plan u).stats = resetStatsForUser (resetStatsForUser st.stats u) u := by
      conv_lhs => rw [resetUsageForSubscription]
      rw [if_neg hp]
      simp only [hstep1]
    rw [hstep2]
    have ha1 : resetStatsForUser st.stats u u = some
        { currentPeriodCost := some 0
          lastPeriodCost := some (jsOrZero r.currentPeriodCost)
          billingBlocked := r.billingBlocked } := by
      rw [resetStatsForUser_apply, if_pos rfl, hr]; rfl
    have ha2 : resetStatsForUser (resetStatsForUser st.stats u) u u = some
        { currentPeriodCost := some 0
          lastPeriodCost := some 0
          billingBlocked := r.billingBlocked } := by
      rw [resetStatsForUser_apply, if_pos rfl, ha1]; rfl
    exact ⟨_, ha2, rfl, rfl⟩

/-- Witness for C5 (amended): the individual subject u1 of `stC5`. -/
theorem resetUsageForSubscription_twice_witness :
    ∃ r, (resetUsageForSubscription (resetUsageForSubscription stC5 "pro" "u1") "pro"
        "u1").stats "u1" = some r ∧
      r.currentPeriodCost = some 0 ∧ r.lastPeriodCost = some 0 :=
  resetUsageForSubscription_twice stC5 "pro" "u1" "u1" (by decide) (by decide)

/-- C10: resetUsageForSubscription never creates stats rows, modifies only
the stats of its subjects (organization members for pooled plans, the
reference subject otherwise), leaves every other table and accessor of the
store untouched, and for an individual subject with no stats row leaves the
store completely unchanged. -/
theorem resetUsageForSubscription_frame (st : Store) (plan referenceId : String) :
    (resetUsageForSubscription st plan referenceId).users = st.users ∧
    (resetUsageForSubscription st plan referenceId).orgs = st.orgs ∧
    (resetUsageForSubscription st plan referenceId).membersT = st.membersT ∧
    (resetUsageForSubscription st plan referenceId).subs = st.subs ∧
    (resetUsageForSubscription st plan referenceId).usage = st.usage ∧
    (resetUsageForSubscription st plan referenceId).highestSub = st.highestSub ∧
    (∀ u, st.stats u = none → (resetUsageForSubscription st plan referenceId).stats u = none) ∧
    (∀ u, u ∉ resetSubjects st plan referenceId →
      (resetUsageForSubscription st plan referenceId).stats u = st.stats u) ∧
    (¬ (plan = "team" ∨ plan = "enterprise") → st.stats referenceId = none →
      resetUsageForSubscription st plan referenceId = st) := by
  by_cases hp : plan = "team" ∨ plan = "enterprise"
  · have hdef : resetUsageForSubscription st plan referenceId =
        { st with stats := (membersOf st referenceId).foldl resetStatsForUser st.stats } := by
      unfold resetUsageForSubscription
      rw [if_pos hp]
    rw [hdef]
    refine ⟨rfl, rfl, rfl, rfl, rfl, rfl, ?_, ?_, ?_⟩
    · intro u h
      exact resetFold_none _ _ _ h
    · intro u hu
      simp only [resetSubjects, if_pos hp] at hu
      exact resetFold_frame _ _ _ hu
    · intro hnp
      exact absurd hp hnp
  · have hdef : resetUsageForSubscription st plan referenceId =
        { st with stats := resetStatsForUser st.stats referenceId } := by
      unfold resetUsageForSubscription
      rw [if_neg hp]
    rw [hdef]
    refine ⟨rfl, rfl, rfl, rfl, rfl, rfl, ?_, ?_, ?_⟩
    · intro u h
      show resetStatsForUser st.stats referenceId u = none
      rw [resetStatsForUser_apply]
      by_cases hv : u = referenceId
      · subst hv; simp [h]
      · simp [hv, h]
    · intro u hu
      simp only [resetSubjects, if_neg hp, List.mem_singleton] at hu
      show resetStatsForUser st.stats referenceId u = st.stats u
      rw [resetStatsForUser_apply, if_neg hu]
    · intro _ hnone
      have h : resetStatsForUser st.stats referenceId = st.stats := by
        unfold resetStatsForUser
        rw [hnone]
      rw [h]

/-- Witness for C10: resetting a pro subscription whose subject u2 has no
stats row leaves `stC5` completely unchanged. -/
theorem resetUsageForSubscription_frame_witness :
    resetUsageForSubscription stC5 "pro" "u2" = stC5 :=
  (resetUsageForSubscription_frame stC5 "pro" "u2").2.2.2.2.2.2.2.2 (by decide) (by decide)

/-- Example active pro subscription used by the invoice.created scenario. -/
def subC3 : SubRow :=
  { plan := "pro"
    referenceId := "u1"
    status := "active"
    seats := none
    stripeSubscriptionId := some "sub4"
    metadata := none }

/-- Example store: pro user u1 with current cost 5, last cost 1 and usage 10
(below the base price, so no overage item is attached). -/
def stC3 : Store :=
  { users := [{ id := "u1", email := none, stripeCustomerId := some "cus1" }]
    orgs := []
    membersT := []
    subs := [subC3]
    stats := fun u => if u = "u1" then
        some { currentPeriodCost := some 5, lastPeriodCost := some 1, billingBlocked := false }
      else none
    usage := fun u => if u = "u1" then 10 else 0
    highestSub := fun u => if u = "u1" then some subC3 else none }

/-- Example world around `stC3`. -/
def wC3 : World :=
  { store := stC3
    stripe := emptyStripe }

/-- Example subscription-cycle invoice.created event for subC3. -/
def invC3 : InvoiceEvt :=
  { subscriptionId := some "sub4"
    billingReason := some "subscription_cycle"
    metadataType := none
    metadataBillingPeriod := none
    customer := "cus1"
    attemptCount := none
    linesPeriodEnd := some 50 }

/-- C3 counterexample: handleInvoiceCreated — a handler that is neither the
payment-succeeded handler nor driven by a confirmed payment — zeroes the
subject's nonzero currentPeriodCost on a subscription-cycle invoice.created
event, refuting the claim that only payment-succeeded handlers reset. -/
theorem handleInvoiceCreated_reset_counterexample :
    (wC3.store.stats "u1").map (fun r => r.currentPeriodCost) = some (some 5) ∧
    ((handleInvoiceCreated cfgEx pEx wC3 invC3).store.stats "u1").map
      (fun r => r.currentPeriodCost) = some (some 0) := by
  refine ⟨rfl, ?_⟩
  have hover : ¬ ((0 : ℚ) < max 0 (getUserUsageData wC3.store subC3.referenceId -
      getPlanPricing cfgEx subC3.plan (some subC3))) := by
    have h1 : getUserUsageData wC3.store subC3.referenceId = 10 := rfl
    have h2 : getPlanPricing cfgEx subC3.plan (some subC3) = 20 := rfl
    rw [h1, h2]
    norm_num
  have hstep : handleInvoiceCreated cfgEx pEx wC3 invC3 =
      { wC3 with store := resetUsageForSubscription wC3.store subC3.plan subC3.referenceId } := by
    simp only [handleInvoiceCreated,
      show jsStrSome invC3.subscriptionId = some "sub4" from rfl,
      show findSubByStripeId wC3.store "sub4" = some subC3 from rfl]
    rw [if_neg (by decide)]
    rw [if_neg (by decide)]
    rw [if_neg hover]
  rw [hstep]
  rfl

/-- C3 (amended): a subject's currentPeriodCost is zeroed only by the
payment-succeeded handler and by the invoice.created subscription-cycle
handler (a documented intentional early reset); the tentative
upcoming-invoice handler leaves the local store completely untouched, and
the payment-failed handler changes only the billing-blocked flag, never the
cost counters. -/
theorem usageReset_other_handlers_spec (cfg : TierConfig) (p : BillingParams) (w : World)
    (st : Store) (inv : InvoiceEvt) :
    (handleInvoiceUpcoming cfg p w inv).store = w.store ∧
    (∀ u, ((handleInvoicePaymentFailed st inv).stats u).map (fun r => r.currentPeriodCost) =
      (st.stats u).map (fun r => r.currentPeriodCost)) ∧
    (∀ u, ((handleInvoicePaymentFailed st inv).stats u).map (fun r => r.lastPeriodCost) =
      (st.stats u).map (fun r => r.lastPeriodCost)) := by
  refine ⟨?_, ?_, ?_⟩
  · cases hjs : jsStrSome inv.subscriptionId with
    | none => simp only [handleInvoiceUpcoming, hjs]
    | some sid =>
      cases hfs : findSubByStripeId w.store sid with
      | none => simp only [handleInvoiceUpcoming, hjs, hfs]
      | some sub =>
        simp only [handleInvoiceUpcoming, hjs, hfs]
        split_ifs <;> rfl
  · intro u
    by_cases h1 : inv.metadataType ≠ some "overage_billing"
    · simp only [handleInvoicePaymentFailed]
      rw [if_pos h1]
    · simp only [handleInvoicePaymentFailed]
      rw [if_neg h1, if_pos (one_le_jsAttempts inv.attemptCount)]
      by_cases h2 : inv.subscriptionId.getD "" ≠ ""
      · rw [if_pos h2]
        cases hsub : findSubByStripeId st (inv.subscriptionId.getD "") with
        | none => simp only [hsub]
        | some sub =>
          simp only [hsub]
          split_ifs with h3
          · exact blockFold_currentPeriodCost true _ st.stats u
          · exact setBlocked_currentPeriodCost st.stats sub.referenceId true u
      · rw [if_neg h2]
  · intro u
    by_cases h1 : inv.metadataType ≠ some "overage_billing"
    · simp only [handleInvoicePaymentFailed]
      rw [if_pos h1]
    · simp only [handleInvoicePaymentFailed]
      rw [if_neg h1, if_pos (one_le_jsAttempts inv.attemptCount)]
      by_cases h2 : inv.subscriptionId.getD "" ≠ ""
      · rw [if_pos h2]
        cases hsub : findSubByStripeId st (inv.subscriptionId.getD "") with
        | none => simp only [hsub]
        | some sub =>
          simp only [hsub]
          split_ifs with h3
          · exact blockFold_lastPeriodCost true _ st.stats u
          · exact setBlocked_lastPeriodCost st.stats sub.referenceId true u
      · rw [if_neg h2]

theorem blockFold_blocked_of_mem (b : Bool) (l : List String)
    (stats : String → Option UserStatsRow) (v : String) (hv : v ∈ l) :
    ∀ r, (l.foldl (fun s u => setBlocked s u b) stats) v = some r → r.billingBlocked = b := by
  intro r hr
  rw [blockFold_apply, if_pos hv] at hr
  cases h0 : stats v with
  | none => rw [h0] at hr; cases hr
  | some r0 =>
    rw [h0] at hr
    simp only [Option.map_some'] at hr
    injection hr with h
    rw [← h]

theorem setBlocked_blocked_at (stats : String → Option UserStatsRow) (u : String) (b : Bool) :
    ∀ r, (setBlocked stats u b) u = some r → r.billingBlocked = b := by
  intro r hr
  rw [setBlocked_apply, if_pos rfl] at hr
  cases h0 : stats u with
  | none => rw [h0] at hr; cases hr
  | some r0 =>
    rw [h0] at hr
    simp only [Option.map_some'] at hr
    injection hr with h
    rw [← h]

theorem resetFold_blocked_pres (l : List String) :
    ∀ (stats : String → Option UserStatsRow) (v : String) (r : UserStatsRow),
      (l.foldl resetStatsForUser stats) v = some r →
      ∃ r0, stats v = some r0 ∧ r.billingBlocked = r0.billingBlocked := by
  induction l with
  | nil => intro stats v r hr; exact ⟨r, by simpa using hr, rfl⟩
  | cons a t ih =>
    intro stats v r hr
    simp only [List.foldl_cons] at hr
    obtain ⟨r1, hr1, hb1⟩ := ih _ v r hr
    rw [resetStatsForUser_apply] at hr1
    by_cases hv : v = a
    · subst hv
      rw [if_pos rfl] at hr1
      cases h0 : stats v with
      | none => rw [h0] at hr1; cases hr1
      | some r0 =>
        rw [h0] at hr1
        simp only [Option.map_some'] at hr1
        injection hr1 with h
        exact ⟨r0, rfl, by rw [hb1, ← h]⟩
    · rw [if_neg hv] at hr1
      exact ⟨r1, hr1, hb1⟩

theorem resetStatsForUser_blocked_pres (stats : String → Option UserStatsRow) (a v : String)
    (r : UserStatsRow) (hr : (resetStatsForUser stats a) v = some r) :
    ∃ r0, stats v = some r0 ∧ r.billingBlocked = r0.billingBlocked := by
  rw [resetStatsForUser_apply] at hr
  by_cases hv : v = a
  · subst hv
    rw [if_pos rfl] at hr
    cases h0 : stats v with
    | none => rw [h0] at hr; cases hr
    | some r0 =>
      rw [h0] at hr
      simp only [Option.map_some'] at hr
      injection hr with h
      exact ⟨r0, rfl, by rw [← h]⟩
  · rw [if_neg hv] at hr
    exact ⟨r, hr, rfl⟩

/-- Example active team subscription of organization o3 with two seats. -/
def teamSubB : SubRow :=
  { plan := "team"
    referenceId := "o3"
    status := "active"
    seats := some 2
    stripeSubscriptionId := some "sub5"
    metadata := none }

/-- Example store: organization o3 with members u1 (billing-blocked, cost 7)
and u2 (not blocked, cost 3). -/
def stC8 : Store :=
  { users := []
    orgs := ["o3"]
    membersT := [{ organizationId := "o3", userId := "u1", role := "owner" },
                 { organizationId := "o3", userId := "u2", role := "member" }]
    subs := [teamSubB]
    stats := fun u =>
      if u = "u1" then
        some { currentPeriodCost := some 7, lastPeriodCost := some 2, billingBlocked := true }
      else if u = "u2" then
        some { currentPeriodCost := some 3, lastPeriodCost := some 1, billingBlocked := false }
      else none
    usage := fun _ => 0
    highestSub := fun _ => none }

/-- Example subscription-cycle invoice payment-succeeded event for sub5. -/
def invC8 : InvoiceEvt :=
  { subscriptionId := some "sub5"
    billingReason := some "subscription_cycle"
    metadataType := none
    metadataBillingPeriod := none
    customer := "cus3"
    attemptCount := none
    linesPeriodEnd := none }

/-- Example overage-billing payment-failed event for sub5 at attempt 3. -/
def invC9 : InvoiceEvt :=
  { subscriptionId := some "sub5"
    billingReason := none
    metadataType := some "overage_billing"
    metadataBillingPeriod := some "2026-10"
    customer := "cus3"
    attemptCount := some 3
    linesPeriodEnd := none }

/-- C8: on an invoice payment-succeeded event for a subscription-cycle
invoice with a matching local subscription, the handler clears
billingBlocked for every affected subject, and performs the usage-counter
reset exactly when at least one affected subject was previously blocked
(otherwise all cost counters are left untouched). -/
theorem handleInvoicePaymentSucceeded_spec (st : Store) (inv : InvoiceEvt) (sid : String)
    (sub : SubRow)
    (h1 : jsStrSome inv.subscriptionId = some sid)
    (h2 : findSubByStripeId st sid = some sub)
    (h3 : inv.billingReason = some "subscription_cycle") :
    (∀ u ∈ resetSubjects st sub.plan sub.referenceId, ∀ r,
      (handleInvoicePaymentSucceeded st inv).stats u = some r → r.billingBlocked = false) ∧
    (wasBlockedFor st sub = false →
      ∀ u, ((handleInvoicePaymentSucceeded st inv).stats u).map (fun r => r.currentPeriodCost) =
          (st.stats u).map (fun r => r.currentPeriodCost) ∧
        ((handleInvoicePaymentSucceeded st inv).stats u).map (fun r => r.lastPeriodCost) =
          (st.stats u).map (fun r => r.lastPeriodCost)) ∧
    (wasBlockedFor st sub = true →
      ∀ u ∈ resetSubjects st sub.plan sub.referenceId, (st.stats u).isSome →
        ∃ r, (handleInvoicePaymentSucceeded st inv).stats u = some r ∧
          r.currentPeriodCost = some 0) := by
  rw [handleInvoicePaymentSucceeded_eq st inv sid sub h1 h2]
  cases hwb : wasBlockedFor st sub with
  | false =>
    rw [if_neg Bool.false_ne_true]
    by_cases hp : sub.plan = "team" ∨ sub.plan = "enterprise"
    · rw [if_pos hp]
      refine ⟨?_, ?_, ?_⟩
      · intro u hu r hr
        simp only [resetSubjects, if_pos hp] at hu
        exact blockFold_blocked_of_mem false _ st.stats u hu r hr
      · intro _ u
        exact ⟨blockFold_currentPeriodCost false _ st.stats u,
          blockFold_lastPeriodCost false _ st.stats u⟩
      · intro hcon
        exact absurd hcon (by decide)
    · rw [if_neg hp]
      refine ⟨?_, ?_, ?_⟩
      · intro u hu r hr
        simp only [resetSubjects, if_neg hp, List.mem_singleton] at hu
        subst hu
        exact setBlocked_blocked_at st.stats sub.referenceId false r hr
      · intro _ u
        exact ⟨setBlocked_currentPeriodCost st.stats sub.referenceId false u,
          setBlocked_lastPeriodCost st.stats sub.referenceId false u⟩
      · intro hcon
        exact absurd hcon (by decide)
  | true =>
    rw [if_pos rfl]
    by_cases hp : sub.plan = "team" ∨ sub.plan = "enterprise"
    · rw [if_pos hp]
      have hdef : resetUsageForSubscription ({ st with stats := (membersOf st sub.referenceId).foldl (fun s u => setBlocked s u false) st.stats }) sub.plan sub.referenceId = { st with stats := (membersOf st sub.referenceId).foldl resetStatsForUser ((membersOf st sub.referenceId).foldl (fun s u => setBlocked s u false) st.stats) } := by
        unfold resetUsageForSubscription
        rw [if_pos hp]
        rfl
      rw [hdef]
      refine ⟨?_, ?_, ?_⟩
      · intro u hu r hr
        simp only [resetSubjects, if_pos hp] at hu
        obtain ⟨r0, hr0, hb⟩ := resetFold_blocked_pres _ _ u r hr
        rw [hb]
        exact blockFold_blocked_of_mem false _ st.stats u hu r0 hr0
      · intro hcon
        exact absurd hcon (by decide)
      · intro _ u hu hrow
        simp only [resetSubjects, if_pos hp] at hu
        obtain ⟨r0, hr0⟩ := Option.isSome_iff_exists.mp hrow
        have hub : ((membersOf st sub.referenceId).foldl (fun s u => setBlocked s u false) st.stats) u = some { r0 with billingBlocked := false } := by
          rw [blockFold_apply, if_pos hu, hr0]
          rfl
        obtain ⟨r2, h2x, h20, _⟩ := resetFold_mem_cur0 _ _ u _ hu hub
        exact ⟨r2, h2x, h20⟩
    · rw [if_neg hp]
      have hdef : resetUsageForSubscription ({ st with stats := setBlocked st.stats sub.referenceId false }) sub.plan sub.referenceId = { st with stats := resetStatsForUser (setBlocked st.stats sub.referenceId false) sub.referenceId } := by
        unfold resetUsageForSubscription
        rw [if_neg hp]
      rw [hdef]
      refine ⟨?_, ?_, ?_⟩
      · intro u hu r hr
        simp only [resetSubjects, if_neg hp, List.mem_singleton] at hu
        subst hu
        obtain ⟨r0, hr0, hb⟩ := resetStatsForUser_blocked_pres _ _ _ r hr
        rw [hb]
        exact setBlocked_blocked_at st.stats sub.referenceId false r0 hr0
      · intro hcon
        exact absurd hcon (by decide)
      · intro _ u hu hrow
        simp only [resetSubjects, if_neg hp, List.mem_singleton] at hu
        subst hu
        obtain ⟨r0, hr0⟩ := Option.isSome_iff_exists.mp hrow
        have hub : (setBlocked st.stats sub.referenceId false) sub.referenceId = some { r0 with billingBlocked := false } := by
          rw [setBlocked_apply, if_pos rfl, hr0]
          rfl
        refine ⟨{ currentPeriodCost := some 0, lastPeriodCost := some (jsOrZero r0.currentPeriodCost), billingBlocked := false }, ?_, rfl⟩
        show resetStatsForUser (setBlocked st.stats sub.referenceId false) sub.referenceId sub.referenceId = some { currentPeriodCost := some 0, lastPeriodCost := some (jsOrZero r0.currentPeriodCost), billingBlocked := false }
        rw [resetStatsForUser_apply, if_pos rfl, hub]
        rfl

/-- Witness for C8: in `stC8` member u1 was blocked, so after the
payment-succeeded event every member is unblocked and u1's counter is
reset to zero. -/
theorem handleInvoicePaymentSucceeded_spec_witness :
    (∀ r, (handleInvoicePaymentSucceeded stC8 invC8).stats "u1" = some r →
      r.billingBlocked = false) ∧
    (∃ r, (handleInvoicePaymentSucceeded stC8 invC8).stats "u1" = some r ∧
      r.currentPeriodCost = some 0) := by
  have h := handleInvoicePaymentSucceeded_spec stC8 invC8 "sub5" teamSubB rfl rfl rfl
  exact ⟨fun r hr => h.1 "u1" (by decide) r hr,
    h.2.2 (by decide) "u1" (by decide) (by decide)⟩

/-- C9: the payment-failed handler ignores invoices without the
overage-billing tag; for a tagged invoice with a matching subscription it
marks every affected subject billing-blocked (the attempt-count threshold
of 1, combined with the `attempt_count || 1` coercion, is always reached);
and a duplicate delivery of the same event leaves the state unchanged. -/
theorem handleInvoicePaymentFailed_spec (st : Store) (inv : InvoiceEvt) :
    (inv.metadataType ≠ some "overage_billing" → handleInvoicePaymentFailed st inv = st) ∧
    (∀ sid sub, inv.metadataType = some "overage_billing" →
      inv.subscriptionId.getD "" = sid → sid ≠ "" →
      findSubByStripeId st sid = some sub →
      ∀ u ∈ resetSubjects st sub.plan sub.referenceId, ∀ r,
        (handleInvoicePaymentFailed st inv).stats u = some r → r.billingBlocked = true) ∧
    handleInvoicePaymentFailed (handleInvoicePaymentFailed st inv) inv =
      handleInvoicePaymentFailed st inv := by
  refine ⟨?_, ?_, ?_⟩
  · intro h
    simp only [handleInvoicePaymentFailed]
    rw [if_pos h]
  · intro sid sub htag hsid hne hsub u hu r hr
    rw [handleInvoicePaymentFailed_eq_of_tag st inv sid sub htag hsid hne hsub] at hr
    by_cases hp : sub.plan = "team" ∨ sub.plan = "enterprise"
    · rw [if_pos hp] at hr
      simp only [resetSubjects, if_pos hp] at hu
      exact blockFold_blocked_of_mem true _ st.stats u hu r hr
    · rw [if_neg hp] at hr
      simp only [resetSubjects, if_neg hp, List.mem_singleton] at hu
      subst hu
      exact setBlocked_blocked_at st.stats sub.referenceId true r hr
  · by_cases htag : inv.metadataType ≠ some "overage_billing"
    · have hid : ∀ s : Store, handleInvoicePaymentFailed s inv = s := fun s => by
        simp only [handleInvoicePaymentFailed]
        rw [if_pos htag]
      rw [hid, hid]
    · have htag2 : inv.metadataType = some "overage_billing" := not_not.mp htag
      by_cases hne : inv.subscriptionId.getD "" ≠ ""
      · cases hsub : findSubByStripeId st (inv.subscriptionId.getD "") with
        | none =>
          have hid : handleInvoicePaymentFailed st inv = st := by
            simp only [handleInvoicePaymentFailed]
            rw [if_neg htag, if_pos (one_le_jsAttempts inv.attemptCount), if_pos hne]
            simp only [hsub]
          rw [hid, hid]
        | some sub =>
          have hx := handleInvoicePaymentFailed_eq_of_tag st inv _ sub htag2 rfl hne hsub
          by_cases hp : sub.plan = "team" ∨ sub.plan = "enterprise"
          · rw [hx, if_pos hp]
            have hy := handleInvoicePaymentFailed_eq_of_tag
              ({ st with stats := (membersOf st sub.referenceId).foldl (fun s u => setBlocked s u true) st.stats }) inv _ sub htag2 rfl hne hsub
            rw [hy, if_pos hp]
            show ({ st with stats := (membersOf st sub.referenceId).foldl (fun s u => setBlocked s u true) ((membersOf st sub.referenceId).foldl (fun s u => setBlocked s u true) st.stats) } : Store) = { st with stats := (membersOf st sub.referenceId).foldl (fun s u => setBlocked s u true) st.stats }
            rw [blockFold_idem]
          · rw [hx, if_neg hp]
            have hy := handleInvoicePaymentFailed_eq_of_tag
              ({ st with stats := setBlocked st.stats sub.referenceId true }) inv _ sub
              htag2 rfl hne hsub
            rw [hy, if_neg hp]
            show ({ st with stats := setBlocked (setBlocked st.stats sub.referenceId true) sub.referenceId true } : Store) = { st with stats := setBlocked st.stats sub.referenceId true }
            rw [setBlocked_idem]
      · have hid : ∀ s : Store, handleInvoicePaymentFailed s inv = s := fun s => by
          simp only [handleInvoicePaymentFailed]
          rw [if_neg htag, if_pos (one_le_jsAttempts inv.attemptCount), if_neg hne]
        rw [hid, hid]

/-- Witness for C9: the tagged failed invoice for sub5 blocks member u2,
and a duplicate delivery is a no-op. -/
theorem handleInvoicePaymentFailed_spec_witness :
    (∀ r, (handleInvoicePaymentFailed stC8 invC9).stats "u2" = some r →
      r.billingBlocked = true) ∧
    handleInvoicePaymentFailed (handleInvoicePaymentFailed stC8 invC9) invC9 =
      handleInvoicePaymentFailed stC8 invC9 := by
  have h := handleInvoicePaymentFailed_spec stC8 invC9
  exact ⟨fun r hr => h.2.1 "sub5" teamSubB rfl rfl (by decide) rfl "u2" (by decide) r hr,
    h.2.2⟩

end SimBilling
